import Mathlib

/-!
Shallow embedding of `btgym/envs/backtrader.py` (class `BTgymEnv`): the
session controller that coordinates an RL client with a remote backtrader
server over a ZMQ REQ/REP channel.  The Python methods `__init__`,
`_start_server`, `_stop_server`, `_force_control_mode`, `_reset`, `_step`
and `get_stat` are translated into pure Lean functions over an explicit
session state (`Env`).  The remote worker and the network are modelled by
an oracle `net : Nat -> TRes` giving the outcome of the i-th send/receive
round trip (counted by the length of the log of sent messages).  The
unbounded `while` loop of `_force_control_mode` is modelled with an
explicit fuel parameter: a result of `none` means the loop is still
running after `fuel` iterations.
-/

namespace BTgym

/-- A Python value as far as the controller inspects it: the controller only
ever looks at the `.shape` attribute of the first tuple element, so an
observation is reduced to its shape.  Anything without a `.shape` attribute
is one of the other constructors (accessing `.shape` on those raises, which
the bare `except:` in `_reset` turns into the mismatch path). -/
inductive Val where
  | obs (shape : List Nat)
  | num (n : Int)
  | flag (b : Bool)
  | dict
  deriving Repr, DecidableEq

/-- A worker reply as far as the controller inspects it: a Python string, a
Python tuple of values, or any other object (`type(r) == tuple` fails on
those). -/
inductive Reply where
  | str (s : String)
  | tup (elems : List Val)
  | objOther
  deriving Repr, DecidableEq

/-- Substring test on character lists: does the list contain `pat` as a
contiguous run?  Mirrors the Python `in` operator on strings. -/
def containsSub (pat : List Char) : List Char → Bool
  | [] => pat.isEmpty
  | c :: t => pat.isPrefixOf (c :: t) || containsSub pat t

/-- The Python test `pat in s` on strings. -/
def strContains (s pat : String) : Bool :=
  containsSub pat.toList s.toList

/-- Rendering of a value inside `str(...)` of a tuple reply (only the fact
that it is some fixed text matters to the controller). -/
def valStr : Val → String
  | .obs _ => "array"
  | .num n => toString n
  | .flag b => if b then "True" else "False"
  | .dict => "dict"

/-- The Python `str(reply)` as used by the marker test of
`_force_control_mode`. -/
def replyStr : Reply → String
  | .str s => s
  | .tup es => String.intercalate ", " (es.map valStr)
  | .objOther => "object"

/-- The loop condition of `_force_control_mode`:
`'CONTROL_MODE' in str(self.server_response)`. -/
def hasControlMarker (r : Reply) : Bool :=
  strContains (replyStr r) "CONTROL_MODE"

/-- `type(r) == tuple and len(r) == 4`: the reply-format assertion of
`_step`. -/
def replyIs4Tuple : Reply → Bool
  | .tup es => es.length == 4
  | _ => false

/-- The `.shape` of the first element of an episode-tuple reply, when both
exist (`self.server_response[0].shape`); `none` when indexing or the
attribute access would raise. -/
def tupleHeadShape : Reply → Option (List Nat)
  | .tup (v :: _) => match v with
    | .obs shape => some shape
    | _ => none
  | _ => none

/-- Outcome of one send/receive round trip as seen by the client: either a
reply object or a raised transport error (`zmq` exception). -/
inductive TRes where
  | ok (r : Reply)
  | err
  deriving Repr, DecidableEq

/-- Session state: the nullable handles of `BTgymEnv` (`self.server`,
`self.context`, `self.socket`), their liveness/closed flags, the log of
messages sent on the channel (its length is the transport send count), and
the last stored `self.server_response`. -/
structure Env where
  server : Bool
  serverAlive : Bool
  context : Bool
  contextClosed : Bool
  socket : Bool
  socketClosed : Bool
  sent : List String
  serverResponse : Reply
  deriving Repr, DecidableEq

/-- Errors the controller can raise, each carrying the diagnostic payload
the corresponding Python exception message carries. -/
inductive Fail where
  /-- the `AssertionError` of the `_step` precondition check, carrying the
  offending action and whether the socket was missing or closed -/
  | assertStep (action : Int) (socketProblem : Bool)
  /-- the `AssertionError` of the `_step` reply-format check, carrying the
  offending payload -/
  | protocolViolation (payload : Reply)
  /-- the `AssertionError` of the `_reset` shape check, carrying expected
  and received shapes -/
  | shapeMismatch (expected : List Nat) (got : Option (List Nat))
  /-- the `ChildProcessError` of `_reset` -/
  | childProcess
  /-- a propagated transport exception -/
  | channelError
  /-- the `FileNotFoundError` of `__init__`, carrying `str(filename)` -/
  | fileNotFound (filename : String)
  deriving Repr, DecidableEq

/-- One blocking round trip, storing the reply in `self.server_response`:
`self.socket.send_pyobj(m); self.server_response = self.socket.recv_pyobj()`.
A transport error raises before the message is recorded as sent. -/
def sendRecv (net : Nat → TRes) (s : Env) (m : String) :
    Except (Fail × Env) (Env × Reply) :=
  match net s.sent.length with
  | .ok r => .ok ({ s with sent := s.sent ++ [m], serverResponse := r }, r)
  | .err => .error (.channelError, s)

/-- One blocking round trip that returns the reply without storing it
(`get_stat` returns `self.socket.recv_pyobj()` directly). -/
def sendRecvNoStore (net : Nat → TRes) (s : Env) (m : String) :
    Except (Fail × Env) (Env × Reply) :=
  match net s.sent.length with
  | .ok r => .ok ({ s with sent := s.sent ++ [m] }, r)
  | .err => .error (.channelError, s)

/-- The `while not 'CONTROL_MODE' in str(self.server_response):` loop of
`_force_control_mode`, fuel-indexed.  `none` means the loop has not exited
after `fuel` iterations (the Python loop itself has no bound). -/
def forceLoop (net : Nat → TRes) : Nat → Env → Option (Except (Fail × Env) Env)
  | 0, _ => none
  | fuel + 1, s =>
    if hasControlMarker s.serverResponse then some (.ok s)
    else
      match sendRecv net s "_done" with
      | .error e => some (.error e)
      | .ok (s1, _) => forceLoop net fuel s1

/-- `_force_control_mode`: checks the server-process and connection
preconditions, then insists on control mode by sending `_done` until the
reply text contains the control marker.  Returns `(false, state)` on a
failed precondition (with the descriptive message stored in
`self.server_response`), `(true, state)` when the loop exits. -/
def forceControlMode (net : Nat → TRes) (fuel : Nat) (s : Env) :
    Option (Except (Fail × Env) (Bool × Env)) :=
  if !s.server || !s.serverAlive then
    some (.ok (false, { s with serverResponse := .str "No running server found." }))
  else if !s.context || s.contextClosed then
    some (.ok (false, { s with serverResponse := .str "No network connection found." }))
  else
    match forceLoop net fuel { s with serverResponse := .str "NONE" } with
    | none => none
    | some (.error e) => some (.error e)
    | some (.ok s1) => some (.ok (true, s1))

/-- The resource part of `_start_server`: destroy any previous client-side
context (closing its socket), open a fresh context and REQ socket, and
spawn the server process.  The port-killing shell command touches no
client state. -/
def startPrep (s : Env) : Env :=
  let s1 := if s.context then { s with contextClosed := true, socket := false } else s
  let s2 := { s1 with context := true, contextClosed := false,
                      socket := true, socketClosed := false }
  { s2 with server := true, serverAlive := true }

/-- `_start_server`: acquire the resources, then ping the server once. -/
def startServer (net : Nat → TRes) (s : Env) : Except (Fail × Env) Env :=
  match sendRecv net (startPrep s) "ping!" with
  | .error e => .error e
  | .ok (s4, _) => .ok s4

/-- `_step(action)`: asserts `self.action_space.contains(action)` (gym
`Discrete(nActions)`: an integer in `[0, nActions)`) and that the socket
exists and is open, else raises with no message sent; otherwise sends
`self.server_actions[action]`, receives the reply, and asserts it is a
4-element tuple, else raises `AssertionError` carrying the payload. -/
def stepOp (net : Nat → TRes) (nActions : Nat) (serverActions : List String)
    (s : Env) (action : Int) : Except (Fail × Env) (Reply × Env) :=
  if !(decide (0 ≤ action) && decide (action < nActions)) || !s.socket || s.socketClosed then
    .error (.assertStep action (!s.socket || s.socketClosed), s)
  else
    match sendRecv net s (serverActions.getD action.toNat "") with
    | .error e => .error e
    | .ok (s1, r) =>
      if replyIs4Tuple r then .ok (r, s1)
      else .error (.protocolViolation r, s1)

/-- `_stop_server`: if a server handle exists, try the graceful path (force
control mode, send `_stop`, await the acknowledgement); if forcing fails,
terminate and reap the process.  Afterwards destroy the client context if
one exists (closing its socket).  There is no `try/finally`: an exception
raised on the graceful path propagates before the context is destroyed. -/
def stopServe (net : Nat → TRes) (fuel : Nat) (s : Env) :
    Option (Except (Fail × Env) Env) :=
  if !s.server then some (.ok s)
  else
    match forceControlMode net fuel s with
    | none => none
    | some (.error e) => some (.error e)
    | some (.ok (true, s1)) =>
      match sendRecv net s1 "_stop" with
      | .error e => some (.error e)
      | .ok (s2, _) => some (.ok { s2 with serverAlive := false })
    | some (.ok (false, s1)) =>
      some (.ok { s1 with serverAlive := false,
                          serverResponse := .str "Server process terminated." })

/-- Full `_stop_server`: the server part (`stopServe`) followed by the
final `if self.context: self.context.destroy()`. -/
def stopServer (net : Nat → TRes) (fuel : Nat) (s : Env) :
    Option (Except (Fail × Env) Env) :=
  match stopServe net fuel s with
  | none => none
  | some (.error e) => some (.error e)
  | some (.ok s1) =>
    some (.ok (if s1.context then
      { s1 with contextClosed := true, socketClosed := true } else s1))

/-- What `_reset` hands back: `self.server_response[0]` when `state_only`,
the full tuple otherwise. -/
inductive ResetOut where
  | state (v : Val)
  | full (r : Reply)
  deriving Repr, DecidableEq

/-- The first element of an episode tuple (`self.server_response[0]`),
defaulting arbitrarily (the call site guarantees a 4-tuple). -/
def tupleHead : Reply → Val
  | .tup (v :: _) => v
  | _ => .dict

/-- The shape check at the end of `_reset`: compare the `.shape` of the
first tuple element with the contracted observation shape; on agreement
return the observation (or the full tuple), otherwise run `_stop_server`
and raise the shape-mismatch `AssertionError`. -/
def resetCheck (net : Nat → TRes) (fuel : Nat) (contractShape : List Nat)
    (stateOnly : Bool) (r : Reply) (s3 : Env) :
    Option (Except (Fail × Env) (ResetOut × Env)) :=
  if tupleHeadShape r = some contractShape then
    some (.ok (if stateOnly then (.state (tupleHead r), s3)
               else (.full r, s3)))
  else
    match stopServer net fuel s3 with
    | none => none
    | some (.error e) => some (.error e)
    | some (.ok s4) =>
      some (.error (.shapeMismatch contractShape (tupleHeadShape r), s4))

/-- The body of `_reset` after the server-process check: force control
mode (raising `ChildProcessError` when that fails), send `_reset`, perform
one internal `_step(0)` and check the shape of its reply. -/
def resetCore (net : Nat → TRes) (fuel : Nat) (contractShape : List Nat)
    (nActions : Nat) (serverActions : List String) (stateOnly : Bool)
    (s0 : Env) : Option (Except (Fail × Env) (ResetOut × Env)) :=
  match forceControlMode net fuel s0 with
  | none => none
  | some (.error e) => some (.error e)
  | some (.ok (false, s1)) => some (.error (.childProcess, s1))
  | some (.ok (true, s1)) =>
    match sendRecv net s1 "_reset" with
    | .error e => some (.error e)
    | .ok (s2, _) =>
      match stepOp net nActions serverActions s2 0 with
      | .error e => some (.error e)
      | .ok (r, s3) => resetCheck net fuel contractShape stateOnly r s3

/-- `_reset(state_only)`: lazily starts the server when no live process is
found, then runs the body. -/
def resetOp (net : Nat → TRes) (fuel : Nat) (contractShape : List Nat)
    (nActions : Nat) (serverActions : List String) (stateOnly : Bool)
    (s : Env) : Option (Except (Fail × Env) (ResetOut × Env)) :=
  match (if !s.server || !s.serverAlive then startServer net s else .ok s) with
  | .error e => some (.error e)
  | .ok s0 => resetCore net fuel contractShape nActions serverActions stateOnly s0

/-- `get_stat`: forces control mode and, when that succeeds, sends
`_getstat` and returns the reply verbatim (without storing it); when
forcing fails, returns the stored `self.server_response` message instead of
raising. -/
def getStat (net : Nat → TRes) (fuel : Nat) (s : Env) :
    Option (Except (Fail × Env) (Reply × Env)) :=
  match forceControlMode net fuel s with
  | none => none
  | some (.error e) => some (.error e)
  | some (.ok (true, s1)) =>
    match sendRecvNoStore net s1 "_getstat" with
    | .error e => some (.error e)
    | .ok (s2, r) => some (.ok (r, s2))
  | some (.ok (false, s1)) => some (.ok (s1.serverResponse, s1))

/-- The constructor arguments `__init__` inspects for dataset preparation:
whether a `dataset` kwarg was passed, and the value of the `filename`
kwarg.  `filename = none` covers both an absent kwarg and an explicit
`None` (either way `params_dataset` keeps its `None` default). -/
structure InitArgs where
  hasDataset : Bool
  filename : Option String
  deriving Repr, DecidableEq

/-- Python `str` applied to the filename parameter: `str(None) = "None"`. -/
def pyStrOpt : Option String → String
  | none => "None"
  | some s => s

/-- The `filename` key is present in the `params_dataset` defaults dict, so
the first disjunct of the `__init__` check is always false. -/
def paramsDatasetHasFilenameKey : Bool := true

/-- Resources held after `__init__` (or at the moment it raises): the
dataset and engine objects, and the server/context/socket handles, which
`__init__` only ever sets to `None`. -/
structure InitResult where
  dataset : Bool
  engine : Bool
  server : Bool
  context : Bool
  socket : Bool
  deriving Repr, DecidableEq

/-- The dataset-preparation part of `__init__` and the resources acquired
around it, against a filesystem oracle `isfile` (`os.path.isfile`).  With
no `dataset` kwarg, it raises `FileNotFoundError` unless `isfile` accepts
`str(filename)`; nothing has been acquired at that point (the engine is
built later, and the server/context/socket handles are only initialised to
`None`). -/
def initEnv (args : InitArgs) (isfile : String → Bool) :
    Except (Fail × InitResult) InitResult :=
  let nothingYet : InitResult :=
    { dataset := false, engine := false, server := false,
      context := false, socket := false }
  if args.hasDataset then
    .ok { nothingYet with dataset := true, engine := true }
  else if !paramsDatasetHasFilenameKey || !isfile (pyStrOpt args.filename) then
    .error (.fileNotFound (pyStrOpt args.filename), nothingYet)
  else
    .ok { nothingYet with dataset := true, engine := true }

/-- The default portfolio action vocabulary of `params_other`. -/
def defaultPortfolioActions : List String := ["hold", "buy", "sell", "close"]

/-- `self.server_actions = self.portfolio_actions + ('_done', '_reset',
'_stop', '_getstat')`. -/
def serverActionsOf (portfolioActions : List String) : List String :=
  portfolioActions ++ ["_done", "_reset", "_stop", "_getstat"]

/-! ### Concrete sessions and scripted transports used as test fixtures -/

/-- A healthy session: server process alive, context and socket open. -/
def liveSession : Env :=
  { server := true, serverAlive := true, context := true,
    contextClosed := false, socket := true, socketClosed := false,
    sent := [], serverResponse := .str "" }

/-- A fresh session on which `start` has never run: no handles at all. -/
def deadSession : Env :=
  { server := false, serverAlive := false, context := false,
    contextClosed := false, socket := false, socketClosed := false,
    sent := [], serverResponse := .str "" }

/-- A worker stub that answers every request with a fixed status text that
never contains the control-mode marker. -/
def stubbornNet : Nat → TRes := fun _ => .ok (.str "Some response.")

/-- A well-formed episode tuple carrying an observation of the given
shape. -/
def goodTup (shape : List Nat) : Reply :=
  .tup [.obs shape, .num 0, .flag false, .dict]

/-- A compliant worker script for a `reset` from a live session: control
acknowledgement, reset acknowledgement, episode tuple of the given shape,
then the control acknowledgement and stop acknowledgement a subsequent
`_stop_server` would consume. -/
def resetScript (shape : List Nat) : Nat → TRes
  | 0 => .ok (.str "CONTROL_MODE ack")
  | 1 => .ok (.str "reset ack")
  | 2 => .ok (goodTup shape)
  | 3 => .ok (.str "CONTROL_MODE ack")
  | _ => .ok (.str "bye")

/-- A compliant worker script for a `reset` that lazily bootstraps the
server: ping reply first, then as `resetScript`. -/
def bootScript (shape : List Nat) : Nat → TRes
  | 0 => .ok (.str "pong")
  | 1 => .ok (.str "CONTROL_MODE ack")
  | 2 => .ok (.str "reset ack")
  | 3 => .ok (goodTup shape)
  | _ => .ok (.str "bye")

/-- A compliant worker script for a graceful `stop`: control
acknowledgement, then the stop acknowledgement. -/
def stopNet : Nat → TRes
  | 0 => .ok (.str "CONTROL_MODE ack")
  | _ => .ok (.str "stop ack")

/-- A worker script whose control acknowledgement arrives but whose next
round trip raises a transport error. -/
def failStopNet : Nat → TRes
  | 0 => .ok (.str "CONTROL_MODE ack")
  | _ => .err

/-- The session left behind by a graceful `_stop_server` from
`liveSession` under `stopNet`: the process is dead and the context
destroyed, but the `server`, `context` and `socket` references are all
still set. -/
def stoppedSession : Env :=
  { server := true, serverAlive := false, context := true,
    contextClosed := true, socket := true, socketClosed := true,
    sent := ["_done", "_stop"], serverResponse := .str "stop ack" }

/-- A compliant worker script for operations performed after
`stoppedSession` (whose send count is already 2): ping reply, control
acknowledgement, reset acknowledgement, episode tuple. -/
def afterStopScript : Nat → TRes
  | 2 => .ok (.str "pong")
  | 3 => .ok (.str "CONTROL_MODE ack")
  | 4 => .ok (.str "reset ack")
  | 5 => .ok (goodTup [4, 10])
  | _ => .ok (.str "bye")

/-! ### Frame lemmas: which fields each operation can change -/

/-- The handles and liveness flags of two states agree (an operation that
only sends messages and stores replies changes neither). -/
def sameHandles (s t : Env) : Prop :=
  t.server = s.server ∧ t.serverAlive = s.serverAlive ∧
  t.context = s.context ∧ t.contextClosed = s.contextClosed ∧
  t.socket = s.socket ∧ t.socketClosed = s.socketClosed

theorem sameHandles_refl (s : Env) : sameHandles s s :=
  ⟨rfl, rfl, rfl, rfl, rfl, rfl⟩

theorem sameHandles_trans {s t u : Env} (h1 : sameHandles s t)
    (h2 : sameHandles t u) : sameHandles s u := by
  obtain ⟨a1, b1, c1, d1, e1, f1⟩ := h1
  obtain ⟨a2, b2, c2, d2, e2, f2⟩ := h2
  exact ⟨a2.trans a1, b2.trans b1, c2.trans c1, d2.trans d1,
         e2.trans e1, f2.trans f1⟩

theorem sendRecv_ok_sameHandles {net s m s1 r}
    (h : sendRecv net s m = .ok (s1, r)) : sameHandles s s1 := by
  unfold sendRecv at h
  cases hn : net s.sent.length <;> rw [hn] at h
  · cases h
    exact ⟨rfl, rfl, rfl, rfl, rfl, rfl⟩
  · cases h

theorem sendRecv_error_eq {net s m e}
    (h : sendRecv net s m = .error e) : e = (.channelError, s) := by
  unfold sendRecv at h
  cases hn : net s.sent.length <;> rw [hn] at h
  · cases h
  · cases h
    rfl

theorem forceLoop_ok_sameHandles {net} :
    ∀ {fuel s s1}, forceLoop net fuel s = some (.ok s1) → sameHandles s s1 := by
  intro fuel
  induction fuel with
  | zero => intro s s1 h; cases h
  | succ n ih =>
    intro s s1 h
    unfold forceLoop at h
    by_cases hm : hasControlMarker s.serverResponse
    · rw [if_pos hm] at h
      cases h
      exact sameHandles_refl s
    · rw [if_neg hm] at h
      cases hsr : sendRecv net s "_done" with
      | error e => rw [hsr] at h; cases h
      | ok p =>
        rw [hsr] at h
        exact sameHandles_trans (sendRecv_ok_sameHandles hsr) (ih h)

theorem forceLoop_error_sameHandles {net} :
    ∀ {fuel s f s1}, forceLoop net fuel s = some (.error (f, s1)) →
      sameHandles s s1 := by
  intro fuel
  induction fuel with
  | zero => intro s f s1 h; cases h
  | succ n ih =>
    intro s f s1 h
    unfold forceLoop at h
    by_cases hm : hasControlMarker s.serverResponse
    · rw [if_pos hm] at h; cases h
    · rw [if_neg hm] at h
      cases hsr : sendRecv net s "_done" with
      | error e =>
        rw [hsr] at h
        cases h
        have := sendRecv_error_eq hsr
        cases this
        exact sameHandles_refl s
      | ok p =>
        rw [hsr] at h
        exact sameHandles_trans (sendRecv_ok_sameHandles hsr) (ih h)

theorem forceControlMode_ok_sameHandles {net fuel s b s1}
    (h : forceControlMode net fuel s = some (.ok (b, s1))) :
    sameHandles s s1 := by
  unfold forceControlMode at h
  by_cases h1 : (!s.server || !s.serverAlive) = true
  · rw [if_pos h1] at h
    cases h
    exact ⟨rfl, rfl, rfl, rfl, rfl, rfl⟩
  · rw [if_neg h1] at h
    by_cases h2 : (!s.context || s.contextClosed) = true
    · rw [if_pos h2] at h
      cases h
      exact ⟨rfl, rfl, rfl, rfl, rfl, rfl⟩
    · rw [if_neg h2] at h
      cases hfl : forceLoop net fuel { s with serverResponse := .str "NONE" } with
      | none => rw [hfl] at h; cases h
      | some r =>
        rw [hfl] at h
        cases r with
        | error e => cases h
        | ok s2 =>
          cases h
          have h3 := forceLoop_ok_sameHandles hfl
          simpa [sameHandles] using h3

theorem forceControlMode_error_sameHandles {net fuel s f s1}
    (h : forceControlMode net fuel s = some (.error (f, s1))) :
    sameHandles s s1 := by
  unfold forceControlMode at h
  by_cases h1 : (!s.server || !s.serverAlive) = true
  · rw [if_pos h1] at h; cases h
  · rw [if_neg h1] at h
    by_cases h2 : (!s.context || s.contextClosed) = true
    · rw [if_pos h2] at h; cases h
    · rw [if_neg h2] at h
      cases hfl : forceLoop net fuel { s with serverResponse := .str "NONE" } with
      | none => rw [hfl] at h; cases h
      | some r =>
        rw [hfl] at h
        cases r with
        | error e =>
          cases h
          have h3 := forceLoop_error_sameHandles hfl
          simpa [sameHandles] using h3
        | ok s2 => cases h

/-- The loop of `_force_control_mode` only reports success when all four
precondition flags held on entry. -/
theorem forceControlMode_ok_true_pre {net fuel s s1}
    (h : forceControlMode net fuel s = some (.ok (true, s1))) :
    s.server = true ∧ s.serverAlive = true ∧
    s.context = true ∧ s.contextClosed = false := by
  unfold forceControlMode at h
  by_cases h1 : (!s.server || !s.serverAlive) = true
  · rw [if_pos h1] at h; cases h
  · rw [if_neg h1] at h
    by_cases h2 : (!s.context || s.contextClosed) = true
    · rw [if_pos h2] at h; cases h
    · rw [if_neg h2] at h
      simp only [Bool.or_eq_true, Bool.not_eq_true', not_or,
        Bool.not_eq_false, Bool.not_eq_true] at h1 h2
      exact ⟨h1.1, h1.2, h2.1, h2.2⟩

theorem stepOp_ok_sameHandles {net n sa s a r s1}
    (h : stepOp net n sa s a = .ok (r, s1)) : sameHandles s s1 := by
  unfold stepOp at h
  split at h
  · cases h
  · split at h
    next e heq => cases h
    next s2 r2 heq =>
      split at h
      · cases h
        exact sendRecv_ok_sameHandles heq
      · cases h

theorem stepOp_error_sameHandles {net n sa s a f s1}
    (h : stepOp net n sa s a = .error (f, s1)) : sameHandles s s1 := by
  unfold stepOp at h
  split at h
  · cases h
    exact sameHandles_refl s
  · split at h
    next e heq =>
      cases h
      have h2 := sendRecv_error_eq heq
      cases h2
      exact sameHandles_refl s
    next s2 r2 heq =>
      split at h
      · cases h
      · cases h
        exact sendRecv_ok_sameHandles heq

/-- Field values of the state prepared by `_start_server` before the
ping. -/
theorem startPrep_fields (s : Env) :
    (startPrep s).server = true ∧ (startPrep s).serverAlive = true ∧
    (startPrep s).context = true ∧ (startPrep s).contextClosed = false ∧
    (startPrep s).socket = true ∧ (startPrep s).socketClosed = false := by
  unfold startPrep
  by_cases hc : s.context = true <;> simp [hc]

/-- A successful `_start_server` always leaves a live server and a freshly
opened context and socket. -/
theorem startServer_ok_fields {net s s1} (h : startServer net s = .ok s1) :
    s1.server = true ∧ s1.serverAlive = true ∧ s1.context = true ∧
    s1.contextClosed = false ∧ s1.socket = true ∧ s1.socketClosed = false := by
  unfold startServer at h
  split at h
  next e heq => cases h
  next s2 r heq =>
    cases h
    have h2 := sendRecv_ok_sameHandles heq
    have h3 := startPrep_fields s
    obtain ⟨a, b, c, d, e, f⟩ := h2
    refine ⟨?_, ?_, ?_, ?_, ?_, ?_⟩ <;> simp_all

/-- The server part of `_stop_server` keeps every handle reference and,
when a server handle existed, leaves the process dead. -/
theorem stopServe_ok_fields {net fuel s s2}
    (h : stopServe net fuel s = some (.ok s2)) :
    s2.server = s.server ∧ s2.context = s.context ∧ s2.socket = s.socket ∧
    (s.server = true → s2.serverAlive = false) := by
  unfold stopServe at h
  split at h
  next hns =>
    cases h
    refine ⟨rfl, rfl, rfl, fun hs => ?_⟩
    rw [hs] at hns
    cases hns
  next hns =>
    split at h
    next hf => cases h
    next e hf => cases h
    next s1 hf =>
      split at h
      next e hsr => cases h
      next s3 r3 hsr =>
        have h2 := forceControlMode_ok_sameHandles hf
        have h3 := sendRecv_ok_sameHandles hsr
        simp only [Option.some_inj, Except.ok.injEq] at h
        rw [← h]
        exact ⟨h3.1.trans h2.1, h3.2.2.1.trans h2.2.2.1,
               h3.2.2.2.2.1.trans h2.2.2.2.2.1, fun _ => rfl⟩
    next s1 hf =>
      have h2 := forceControlMode_ok_sameHandles hf
      simp only [Option.some_inj, Except.ok.injEq] at h
      rw [← h]
      exact ⟨h2.1, h2.2.2.1, h2.2.2.2.2.1, fun _ => rfl⟩

/-- A completed `_stop_server` from a state holding a server and a context
always ends with the process dead and the context destroyed (its socket
closed with it). -/
theorem stopServer_ok_stopped {net fuel s s1}
    (hs : s.server = true) (hc : s.context = true)
    (h : stopServer net fuel s = some (.ok s1)) :
    s1.serverAlive = false ∧ s1.context = true ∧
    s1.contextClosed = true ∧ s1.socketClosed = true := by
  unfold stopServer at h
  cases hsv : stopServe net fuel s with
  | none => rw [hsv] at h; cases h
  | some r =>
    rw [hsv] at h
    cases r with
    | error e => cases h
    | ok s2 =>
      have h2 := stopServe_ok_fields hsv
      have hcx : s2.context = true := by rw [h2.2.1, hc]
      simp only [Option.some_inj, Except.ok.injEq] at h
      rw [if_pos hcx] at h
      rw [← h]
      exact ⟨h2.2.2.2 hs, hcx, rfl, rfl⟩

/-- `_stop_server` never changes which handles exist: it can kill the
process and destroy the context, but `self.server`, `self.context` and
`self.socket` keep their references. -/
theorem stopServer_ok_handles {net fuel s s1}
    (h : stopServer net fuel s = some (.ok s1)) :
    s1.server = s.server ∧ s1.context = s.context ∧ s1.socket = s.socket := by
  unfold stopServer at h
  cases hsv : stopServe net fuel s with
  | none => rw [hsv] at h; cases h
  | some r =>
    rw [hsv] at h
    cases r with
    | error e => cases h
    | ok s2 =>
      have h2 := stopServe_ok_fields hsv
      simp only [Option.some_inj, Except.ok.injEq] at h
      rw [← h]
      by_cases hcx : s2.context = true
      · rw [if_pos hcx]
        exact ⟨h2.1, h2.2.1, h2.2.2.1⟩
      · rw [if_neg hcx]
        exact ⟨h2.1, h2.2.1, h2.2.2.1⟩

/-- Exceptions escaping the loop of `_force_control_mode` are transport
errors. -/
theorem forceLoop_error_channel {net} :
    ∀ {fuel s f s1}, forceLoop net fuel s = some (.error (f, s1)) →
      f = .channelError := by
  intro fuel
  induction fuel with
  | zero => intro s f s1 h; cases h
  | succ n ih =>
    intro s f s1 h
    unfold forceLoop at h
    by_cases hm : hasControlMarker s.serverResponse
    · rw [if_pos hm] at h; cases h
    · rw [if_neg hm] at h
      cases hsr : sendRecv net s "_done" with
      | error e =>
        rw [hsr] at h
        cases h
        have h2 := sendRecv_error_eq hsr
        cases h2
        rfl
      | ok p => rw [hsr] at h; exact ih h

/-- Exceptions escaping `_force_control_mode` are transport errors. -/
theorem forceControlMode_error_channel {net fuel s f s1}
    (h : forceControlMode net fuel s = some (.error (f, s1))) :
    f = .channelError := by
  unfold forceControlMode at h
  split at h
  · cases h
  · split at h
    · cases h
    · split at h
      next hfl => cases h
      next e hfl =>
        simp only [Option.some_inj, Except.error.injEq] at h
        rw [h] at hfl
        exact forceLoop_error_channel hfl
      next s2 hfl => cases h

/-- Exceptions escaping `_start_server` are transport errors. -/
theorem startServer_error_channel {net s f s1}
    (h : startServer net s = .error (f, s1)) : f = .channelError := by
  unfold startServer at h
  split at h
  next e heq =>
    cases h
    have h2 := sendRecv_error_eq heq
    cases h2
    rfl
  next s2 r heq => cases h

/-- The possible exception payloads of `_step`: the precondition
assertion, a transport error, or the reply-format assertion. -/
theorem stepOp_error_forms {net n sa s a f s1}
    (h : stepOp net n sa s a = .error (f, s1)) :
    (∃ b, f = .assertStep a b) ∨ f = .channelError ∨
    ∃ r, f = .protocolViolation r := by
  unfold stepOp at h
  split at h
  · cases h
    exact .inl ⟨_, rfl⟩
  · split at h
    next e heq =>
      cases h
      have h2 := sendRecv_error_eq heq
      cases h2
      exact .inr (.inl rfl)
    next s2 r2 heq =>
      split at h
      · cases h
      · cases h
        exact .inr (.inr ⟨_, rfl⟩)

/-- Exceptions escaping `_stop_server` are transport errors. -/
theorem stopServe_error_channel {net fuel s f s1}
    (h : stopServe net fuel s = some (.error (f, s1))) :
    f = .channelError := by
  unfold stopServe at h
  split at h
  · cases h
  · split at h
    next hf => cases h
    next e hf =>
      simp only [Option.some_inj, Except.error.injEq] at h
      rw [h] at hf
      exact forceControlMode_error_channel hf
    next s2 hf =>
      split at h
      next e hsr =>
        simp only [Option.some_inj, Except.error.injEq] at h
        rw [h] at hsr
        have h2 := sendRecv_error_eq hsr
        exact congrArg Prod.fst h2
      next s3 r3 hsr => cases h
    next s2 hf => cases h

/-- Exceptions escaping the full `_stop_server` are transport errors. -/
theorem stopServer_error_channel {net fuel s f s1}
    (h : stopServer net fuel s = some (.error (f, s1))) :
    f = .channelError := by
  unfold stopServer at h
  split at h
  · cases h
  next e hsv =>
    simp only [Option.some_inj, Except.error.injEq] at h
    rw [h] at hsv
    exact stopServe_error_channel hsv
  next s2 hsv => cases h

/-- A round-trip outcome that is a well-delivered reply whose text does not
contain the control-mode marker (a worker that answers but never
acknowledges control mode). -/
def okNoMarker : TRes → Bool
  | .ok r => !hasControlMarker r
  | .err => false

/-- Against a worker whose replies never contain the control-mode marker,
the `while` loop of `_force_control_mode` is still running after any
number of iterations. -/
theorem forceLoop_none_of_noMarker {net : Nat → TRes}
    (hnet : ∀ i, okNoMarker (net i) = true) :
    ∀ fuel s, hasControlMarker s.serverResponse = false →
      forceLoop net fuel s = none := by
  intro fuel
  induction fuel with
  | zero => intro s _; rfl
  | succ n ih =>
    intro s hs
    unfold forceLoop
    rw [hs]
    simp only [Bool.false_eq_true, if_false]
    have hn := hnet s.sent.length
    cases hr : net s.sent.length with
    | err => rw [hr] at hn; cases hn
    | ok r =>
      rw [hr] at hn
      simp only [okNoMarker, Bool.not_eq_true'] at hn
      simp only [sendRecv, hr]
      exact ih _ hn

/-- When the shape check of `_reset` raises, `_stop_server` has completed
beforehand: the reported state has a dead process and a destroyed
context. -/
theorem resetCheck_shapeMismatch {net fuel c so r s3 e g s1}
    (hs : s3.server = true) (hc : s3.context = true)
    (h : resetCheck net fuel c so r s3 =
      some (.error (.shapeMismatch e g, s1))) :
    s1.serverAlive = false ∧ s1.context = true ∧
    s1.contextClosed = true ∧ s1.socketClosed = true := by
  unfold resetCheck at h
  split at h
  · simp at h
  · split at h
    next hstop => cases h
    next e2 hstop =>
      simp only [Option.some_inj, Except.error.injEq] at h
      rw [h] at hstop
      have h2 := stopServer_error_channel hstop
      cases h2
    next s4 hstop =>
      simp only [Option.some_inj, Except.error.injEq, Prod.mk.injEq,
        Fail.shapeMismatch.injEq] at h
      obtain ⟨_, hs4⟩ := h
      rw [← hs4]
      exact stopServer_ok_stopped hs hc hstop

/-- When the body of `_reset` raises the shape-mismatch assertion, the
worker has been stopped and the context destroyed first. -/
theorem resetCore_shapeMismatch {net fuel c n sa so s0 e g s1}
    (h : resetCore net fuel c n sa so s0 =
      some (.error (.shapeMismatch e g, s1))) :
    s1.serverAlive = false ∧ s1.context = true ∧
    s1.contextClosed = true ∧ s1.socketClosed = true := by
  unfold resetCore at h
  split at h
  next hf => cases h
  next e2 hf =>
    simp only [Option.some_inj, Except.error.injEq] at h
    rw [h] at hf
    have h2 := forceControlMode_error_channel hf
    cases h2
  next s1f hf => simp at h
  next s1t hf =>
    split at h
    next e2 hsr =>
      simp only [Option.some_inj, Except.error.injEq] at h
      rw [h] at hsr
      have h2 := sendRecv_error_eq hsr
      have h3 := congrArg Prod.fst h2
      cases h3
    next s2 r2 hsr =>
      split at h
      next e2 hstep =>
        simp only [Option.some_inj, Except.error.injEq] at h
        rw [h] at hstep
        rcases stepOp_error_forms hstep with ⟨b, hb⟩ | hb | ⟨r3, hb⟩ <;>
          cases hb
      next r s3 hstep =>
        have hpre := forceControlMode_ok_true_pre hf
        have hf2 := forceControlMode_ok_sameHandles hf
        have hsr2 := sendRecv_ok_sameHandles hsr
        have hst2 := stepOp_ok_sameHandles hstep
        have hserver : s3.server = true := by
          rw [hst2.1, hsr2.1, hf2.1, hpre.1]
        have hcontext : s3.context = true := by
          rw [hst2.2.2.1, hsr2.2.2.1, hf2.2.2.1, hpre.2.2.1]
        exact resetCheck_shapeMismatch hserver hcontext h

/-- When `_reset` itself raises the shape-mismatch assertion, the worker
has been stopped and the context destroyed first. -/
theorem resetOp_shapeMismatch {net fuel c n sa so s e g s1}
    (h : resetOp net fuel c n sa so s =
      some (.error (.shapeMismatch e g, s1))) :
    s1.serverAlive = false ∧ s1.context = true ∧
    s1.contextClosed = true ∧ s1.socketClosed = true := by
  unfold resetOp at h
  split at h
  next e2 hpre =>
    simp only [Option.some_inj, Except.error.injEq] at h
    rw [h] at hpre
    split at hpre
    · have h2 := startServer_error_channel hpre
      cases h2
    · cases hpre
  next s0 hpre =>
    exact resetCore_shapeMismatch h

/-! ## C1 -/

/-- C1 (amended): `_force_control_mode` has no attempt ceiling.  When the
worker-alive and channel-open preconditions hold and the worker's replies
never contain the control-mode marker, the send/receive loop is still
running after any number `fuel` of iterations (the code checks no bound
and defines no `ForceModeTimeout`): the fuel-indexed model returns `none`
for every fuel. -/
theorem C1_force_control_mode_unbounded (net : Nat → TRes) (fuel : Nat)
    (s : Env) (h1 : s.server = true) (h2 : s.serverAlive = true)
    (h3 : s.context = true) (h4 : s.contextClosed = false)
    (hnet : ∀ i, okNoMarker (net i) = true) :
    forceControlMode net fuel s = none := by
  have hc1 : (!s.server || !s.serverAlive) = false := by rw [h1, h2]; rfl
  have hc2 : (!s.context || s.contextClosed) = false := by rw [h3, h4]; rfl
  unfold forceControlMode
  rw [hc1]
  simp only [Bool.false_eq_true, if_false]
  rw [hc2]
  simp only [Bool.false_eq_true, if_false]
  rw [forceLoop_none_of_noMarker hnet fuel
    { s with serverResponse := .str "NONE" }
    (by decide : hasControlMarker (Reply.str "NONE") = false)]

/-- C1 (witness): a live session against the stubborn worker stub: the
loop has not terminated after 5 iterations. -/
theorem C1_force_control_mode_unbounded_witness :
    forceControlMode stubbornNet 5 liveSession = none := by
  have hnet : ∀ i, okNoMarker (stubbornNet i) = true := fun _ => rfl
  exact C1_force_control_mode_unbounded stubbornNet 5 liveSession
    rfl rfl rfl rfl hnet

/-- C1 (counterexample): the claim's attempt ceiling does not exist: there
is no bound `N` after which `_force_control_mode`, run on a live session
against a worker that always answers without the control marker, has
terminated (with `ForceModeTimeout` or anything else). -/
theorem C1_no_attempt_ceiling :
    ¬ ∃ N : Nat, (forceControlMode stubbornNet N liveSession).isSome := by
  rintro ⟨N, hN⟩
  have hnet : ∀ i, okNoMarker (stubbornNet i) = true := fun _ => rfl
  have h : forceLoop stubbornNet N
      { liveSession with serverResponse := .str "NONE" } = none :=
    forceLoop_none_of_noMarker hnet N _ (by decide)
  unfold forceControlMode at hN
  rw [h] at hN
  simp [liveSession] at hN

/-! ## C2 -/

/-- C2: once the `_step` preconditions pass and a reply `r` is delivered,
`_step` returns `r` unchanged exactly when `r` is a 4-element tuple, and
otherwise raises the reply-format `AssertionError` carrying the offending
payload `r`.  In both cases the action symbol was sent and the reply
stored. -/
theorem C2_step_reply_validation (net : Nat → TRes) (n : Nat)
    (sa : List String) (s : Env) (a : Int) (r : Reply)
    (ha0 : 0 ≤ a) (ha1 : a < n) (hs1 : s.socket = true)
    (hs2 : s.socketClosed = false) (hr : net s.sent.length = .ok r) :
    (replyIs4Tuple r = true →
      stepOp net n sa s a = .ok (r,
        { s with sent := s.sent ++ [sa.getD a.toNat ""], serverResponse := r })) ∧
    (replyIs4Tuple r = false →
      stepOp net n sa s a = .error (.protocolViolation r,
        { s with sent := s.sent ++ [sa.getD a.toNat ""], serverResponse := r })) := by
  have hcond : (!(decide (0 ≤ a) && decide (a < (n : Int))) || !s.socket
      || s.socketClosed) = false := by
    simp [ha0, ha1, hs1, hs2]
  constructor
  · intro h4
    unfold stepOp
    rw [hcond]
    simp only [Bool.false_eq_true, if_false, sendRecv, hr, h4, if_true]
  · intro h4
    unfold stepOp
    rw [hcond]
    simp only [Bool.false_eq_true, if_false, sendRecv, hr, h4, if_false]

/-- C2 (witness): with the default vocabulary, a delivered 4-tuple is
returned unchanged, and the stubborn worker's string reply raises the
protocol assertion carrying that string. -/
theorem C2_step_reply_validation_witness :
    (stepOp (fun _ => .ok (goodTup [4, 10])) 4
        (serverActionsOf defaultPortfolioActions) liveSession 1 =
      .ok (goodTup [4, 10],
        { liveSession with sent := ["buy"], serverResponse := goodTup [4, 10] })) ∧
    (stepOp stubbornNet 4 (serverActionsOf defaultPortfolioActions)
        liveSession 1 =
      .error (.protocolViolation (.str "Some response."),
        { liveSession with sent := ["buy"],
                           serverResponse := .str "Some response." })) :=
  ⟨(C2_step_reply_validation (fun _ => .ok (goodTup [4, 10])) 4
      (serverActionsOf defaultPortfolioActions) liveSession 1 (goodTup [4, 10])
      (by decide) (by decide) rfl rfl rfl).1 (by decide),
   (C2_step_reply_validation stubbornNet 4
      (serverActionsOf defaultPortfolioActions) liveSession 1
      (.str "Some response.")
      (by decide) (by decide) rfl rfl rfl).2 (by decide)⟩

/-! ## C3 -/

/-- C3: for an action outside the `Discrete` action space, `_step` raises
the precondition `AssertionError` before any message is sent: the whole
session state (in particular the transport send log) is returned
untouched. -/
theorem C3_invalid_action_fail_fast (net : Nat → TRes) (n : Nat)
    (sa : List String) (s : Env) (a : Int) (h : ¬(0 ≤ a ∧ a < n)) :
    stepOp net n sa s a =
      .error (.assertStep a (!s.socket || s.socketClosed), s) := by
  have h1 : (decide (0 ≤ a) && decide (a < (n : Int))) = false := by
    cases hb : (decide (0 ≤ a) && decide (a < (n : Int)))
    · rfl
    · exfalso
      rw [Bool.and_eq_true, decide_eq_true_eq, decide_eq_true_eq] at hb
      exact h hb
  unfold stepOp
  rw [h1]
  simp only [Bool.not_false, Bool.true_or, if_true]

/-- C3 (witness): the spec scenario `step(5)` with the four default
actions fails fast on a live session and leaves it untouched. -/
theorem C3_invalid_action_fail_fast_witness :
    stepOp stubbornNet 4 (serverActionsOf defaultPortfolioActions)
      liveSession 5 = .error (.assertStep 5 false, liveSession) :=
  C3_invalid_action_fail_fast stubbornNet 4
    (serverActionsOf defaultPortfolioActions) liveSession 5 (by decide)

/-! ## C5 -/

/-- The session state right after `_step` has raised the reply-format
assertion on the stubborn worker's string reply: the action symbol was
sent, the offending reply stored, and nothing else changed. -/
def protocolViolState : Env :=
  { liveSession with sent := ["hold"], serverResponse := .str "Some response." }

/-- The session state `_reset` reports with its shape-mismatch assertion
under `resetScript`: `_stop_server` has already run, so the process is
dead and the context destroyed, with the full message trace
`_done, _reset, hold, _done, _stop`. -/
def resetMismatchState : Env :=
  { liveSession with serverAlive := false, contextClosed := true,
                     socketClosed := true,
                     sent := ["_done", "_reset", "hold", "_done", "_stop"],
                     serverResponse := .str "bye" }

/-- C5 (counterexample): a `ProtocolViolation` raised by `_step` reaches
the caller with the worker still alive and the channel still open — the
worker is not stopped and no resource is released before the error
surfaces. -/
theorem C5_protocol_violation_no_cleanup :
    stepOp stubbornNet 4 (serverActionsOf defaultPortfolioActions)
        liveSession 0 =
      .error (.protocolViolation (.str "Some response."), protocolViolState) ∧
    protocolViolState.serverAlive = true ∧
    protocolViolState.contextClosed = false ∧
    protocolViolState.socketClosed = false :=
  ⟨rfl, rfl, rfl, rfl⟩

/-- C5 (amended): only the `ObservationShapeMismatch` failure of `_reset`
stops the worker and destroys the context before surfacing; a
`ProtocolViolation` raised by `_step` leaves every handle and liveness
flag exactly as it found them (worker not stopped, channel not
released). -/
theorem C5_fatal_failure_cleanup :
    (∀ (net : Nat → TRes) (n : Nat) (sa : List String) (s : Env) (a : Int)
        (r : Reply) (s1 : Env),
      stepOp net n sa s a = .error (.protocolViolation r, s1) →
      s1.server = s.server ∧ s1.serverAlive = s.serverAlive ∧
      s1.context = s.context ∧ s1.contextClosed = s.contextClosed ∧
      s1.socketClosed = s.socketClosed) ∧
    (∀ (net : Nat → TRes) (fuel : Nat) (c : List Nat) (n : Nat)
        (sa : List String) (so : Bool) (s : Env) (e : List Nat)
        (g : Option (List Nat)) (s1 : Env),
      resetOp net fuel c n sa so s =
        some (.error (.shapeMismatch e g, s1)) →
      s1.serverAlive = false ∧ s1.contextClosed = true ∧
      s1.socketClosed = true) := by
  constructor
  · intro net n sa s a r s1 h
    have h2 := stepOp_error_sameHandles h
    exact ⟨h2.1, h2.2.1, h2.2.2.1, h2.2.2.2.1, h2.2.2.2.2.2⟩
  · intro net fuel c n sa so s e g s1 h
    have h2 := resetOp_shapeMismatch h
    exact ⟨h2.1, h2.2.2.1, h2.2.2.2⟩

/-- C5 (witness): the two halves applied to concrete runs: the stubborn
worker's malformed step reply leaves the live session's flags untouched,
and a `reset` receiving a (9,9) observation against the (4,10) contract
reports a stopped worker and destroyed context. -/
theorem C5_fatal_failure_cleanup_witness :
    (protocolViolState.server = liveSession.server ∧
     protocolViolState.serverAlive = liveSession.serverAlive ∧
     protocolViolState.context = liveSession.context ∧
     protocolViolState.contextClosed = liveSession.contextClosed ∧
     protocolViolState.socketClosed = liveSession.socketClosed) ∧
    (resetMismatchState.serverAlive = false ∧
     resetMismatchState.contextClosed = true ∧
     resetMismatchState.socketClosed = true) :=
  ⟨C5_fatal_failure_cleanup.1 stubbornNet 4
      (serverActionsOf defaultPortfolioActions) liveSession 0
      (.str "Some response.") protocolViolState rfl,
   C5_fatal_failure_cleanup.2 (resetScript [9, 9]) 5 [4, 10] 4
      (serverActionsOf defaultPortfolioActions) true liveSession [4, 10]
      (some [9, 9]) resetMismatchState rfl⟩

/-! ## C4 -/

/-- The session state after a successful `_reset` on a live session under
`resetScript`: one forced-control round trip, the `_reset` command, and
the single internal `_step(0)` that sent the neutral symbol `hold`. -/
def resetOkState : Env :=
  { liveSession with sent := ["_done", "_reset", "hold"],
                     serverResponse := goodTup [4, 10] }

/-- The session state after a `_reset` that had to bootstrap the server
first: as `resetOkState`, with the `ping!` handshake in front. -/
def bootOkState : Env :=
  { liveSession with sent := ["ping!", "_done", "_reset", "hold"],
                     serverResponse := goodTup [4, 10] }

/-- C4: `_reset` performs, in order: lazy `_start_server` when no live
worker exists (the `ping!` handshake opens the trace); forcing control
mode (`_done`); the `_reset` command; exactly one internal `_step(0)`
sending the neutral symbol `hold`.  A reply whose observation shape
matches the (4,10) contract is returned (observation only, or the full
tuple); a mismatching shape makes `_reset` run `_stop_server` (dead
process, destroyed context, trailing `_done`/`_stop` messages) and raise
the shape-mismatch assertion. -/
theorem C4_reset_protocol (shape : List Nat) (stateOnly : Bool) :
    (resetOp (bootScript [4, 10]) 5 [4, 10] 4
        (serverActionsOf defaultPortfolioActions) true deadSession =
      some (.ok (.state (.obs [4, 10]), bootOkState)) ∧
     bootOkState.sent = ["ping!", "_done", "_reset", "hold"]) ∧
    (resetOp (resetScript [4, 10]) 5 [4, 10] 4
        (serverActionsOf defaultPortfolioActions) stateOnly liveSession =
      some (.ok (if stateOnly then (ResetOut.state (.obs [4, 10]), resetOkState)
                 else (ResetOut.full (goodTup [4, 10]), resetOkState))) ∧
     resetOkState.sent = ["_done", "_reset", "hold"]) ∧
    (shape ≠ [4, 10] →
      resetOp (resetScript shape) 5 [4, 10] 4
          (serverActionsOf defaultPortfolioActions) stateOnly liveSession =
        some (.error (.shapeMismatch [4, 10] (some shape),
          resetMismatchState)) ∧
      resetMismatchState.serverAlive = false ∧
      resetMismatchState.contextClosed = true ∧
      resetMismatchState.sent = ["_done", "_reset", "hold", "_done", "_stop"]) := by
  refine ⟨⟨rfl, rfl⟩, ⟨?_, rfl⟩, fun h => ⟨?_, rfl, rfl, rfl⟩⟩
  · cases stateOnly <;> rfl
  · have hne : ¬(tupleHeadShape (goodTup shape) = some [4, 10]) := by
      simpa [tupleHeadShape, goodTup] using h
    show resetCheck (resetScript shape) 5 [4, 10] stateOnly (goodTup shape)
        { liveSession with sent := ["_done", "_reset", "hold"],
                           serverResponse := goodTup shape } =
      some (.error (.shapeMismatch [4, 10] (some shape), resetMismatchState))
    unfold resetCheck
    rw [if_neg hne]
    rfl

/-- C4 (witness): the mismatch branch at the concrete shape (9,9) against
the (4,10) contract. -/
theorem C4_reset_protocol_witness :
    resetOp (resetScript [9, 9]) 5 [4, 10] 4
        (serverActionsOf defaultPortfolioActions) true liveSession =
      some (.error (.shapeMismatch [4, 10] (some [9, 9]),
        resetMismatchState)) ∧
    resetMismatchState.serverAlive = false ∧
    resetMismatchState.contextClosed = true ∧
    resetMismatchState.sent = ["_done", "_reset", "hold", "_done", "_stop"] :=
  (C4_reset_protocol [9, 9] true).2.2 (by decide)

/-! ## C6 -/

/-- The session after a `_reset` performed on `stoppedSession`: the lazy
bootstrap restarted the server (ping, forced control, reset, neutral
step) and a fresh episode is running. -/
def restartedSession : Env :=
  { liveSession with
      sent := ["_done", "_stop", "ping!", "_done", "_reset", "hold"],
      serverResponse := goodTup [4, 10] }

/-- C6 (counterexample): after `_stop_server` completes on a live session,
the worker and channel handles are still set (not null), a subsequent
`_reset` succeeds by lazily restarting the server instead of failing, and
`get_stat` returns the stored diagnostic message instead of raising. -/
theorem C6_stop_not_branch_terminal :
    stopServer stopNet 2 liveSession = some (.ok stoppedSession) ∧
    stoppedSession.server = true ∧
    stoppedSession.context = true ∧
    stoppedSession.socket = true ∧
    resetOp afterStopScript 5 [4, 10] 4
        (serverActionsOf defaultPortfolioActions) true stoppedSession =
      some (.ok (.state (.obs [4, 10]), restartedSession)) ∧
    getStat stubbornNet 2 stoppedSession =
      some (.ok (.str "No running server found.",
        { stoppedSession with
            serverResponse := .str "No running server found." })) :=
  ⟨rfl, rfl, rfl, rfl, rfl, rfl⟩

/-- C6 (amended): after `_stop_server`, the process is dead and the
context destroyed but the `server`/`context`/`socket` references are
retained (no handle is nulled); a subsequent `_step` fails fast on the
closed socket for every action without sending; `_reset` lazily restarts
the server and succeeds rather than failing; and `get_stat` returns the
stored `No running server found.` message rather than raising. -/
theorem C6_after_stop_behavior :
    (∀ (net : Nat → TRes) (a : Int),
      stepOp net 4 (serverActionsOf defaultPortfolioActions)
        stoppedSession a = .error (.assertStep a true, stoppedSession)) ∧
    (stoppedSession.serverAlive = false ∧
     stoppedSession.contextClosed = true ∧
     stoppedSession.socketClosed = true) ∧
    (stoppedSession.server = true ∧ stoppedSession.context = true ∧
     stoppedSession.socket = true) ∧
    resetOp afterStopScript 5 [4, 10] 4
        (serverActionsOf defaultPortfolioActions) true stoppedSession =
      some (.ok (.state (.obs [4, 10]), restartedSession)) ∧
    getStat stubbornNet 2 stoppedSession =
      some (.ok (.str "No running server found.",
        { stoppedSession with
            serverResponse := .str "No running server found." })) := by
  refine ⟨fun net a => ?_, ⟨rfl, rfl, rfl⟩, ⟨rfl, rfl, rfl⟩, rfl, rfl⟩
  simp [stepOp, stoppedSession]

/-! ## C7 -/

/-- The session state carried by the transport error that escapes the
graceful path of `_stop_server` under `failStopNet`: the control round
trip succeeded but the `_stop` round trip raised; the context is still
open. -/
def stopFailState : Env :=
  { liveSession with sent := ["_done"],
                     serverResponse := .str "CONTROL_MODE ack" }

/-- A live session whose worker process has died on its own. -/
def deadWorkerSession : Env := { liveSession with serverAlive := false }

/-- The session left behind by the fallback terminate-and-reap path of
`_stop_server` on `deadWorkerSession`. -/
def fallbackStopState : Env :=
  { liveSession with serverAlive := false, contextClosed := true,
                     socketClosed := true,
                     serverResponse := .str "Server process terminated." }

/-- C7 (counterexample): a transport error during the graceful path of
`_stop_server` (the `_stop` round trip raises) propagates before the
final context destroy, leaving the channel unreleased even though one was
open. -/
theorem C7_transport_error_skips_release :
    liveSession.context = true ∧
    stopServer failStopNet 2 liveSession =
      some (.error (.channelError, stopFailState)) ∧
    stopFailState.contextClosed = false ∧
    stopFailState.socketClosed = false :=
  ⟨rfl, rfl, rfl, rfl⟩

/-- C7 (amended): whenever `_stop_server` runs to completion — through
the graceful path or the terminate-and-reap fallback — a held context has
been destroyed and its socket closed; but an exception raised midway
(there is no `try/finally`) propagates before the release, so the
unconditional-release guarantee holds only for non-exceptional exits. -/
theorem C7_stop_releases_on_completion (net : Nat → TRes) (fuel : Nat)
    (s s1 : Env) (hc : s.context = true)
    (h : stopServer net fuel s = some (.ok s1)) :
    s1.contextClosed = true ∧ s1.socketClosed = true := by
  unfold stopServer at h
  cases hsv : stopServe net fuel s with
  | none => rw [hsv] at h; cases h
  | some r =>
    rw [hsv] at h
    cases r with
    | error e => cases h
    | ok s2 =>
      have h2 := stopServe_ok_fields hsv
      have hcx : s2.context = true := by rw [h2.2.1, hc]
      simp only [Option.some_inj, Except.ok.injEq] at h
      rw [if_pos hcx] at h
      rw [← h]
      exact ⟨rfl, rfl⟩

/-- C7 (witness): both completed paths release the channel: the graceful
stop from `liveSession` and the fallback stop from `deadWorkerSession`. -/
theorem C7_stop_releases_on_completion_witness :
    (stoppedSession.contextClosed = true ∧
     stoppedSession.socketClosed = true) ∧
    (fallbackStopState.contextClosed = true ∧
     fallbackStopState.socketClosed = true) :=
  ⟨C7_stop_releases_on_completion stopNet 2 liveSession stoppedSession
      rfl rfl,
   C7_stop_releases_on_completion stubbornNet 2 deadWorkerSession
      fallbackStopState rfl rfl⟩

/-! ## C8 -/

/-- A session whose worker is alive but whose ZMQ context has been
closed. -/
def closedChannelSession : Env := { liveSession with contextClosed := true }

/-- C8: `_force_control_mode` short-circuits, before any send, when the
server process is missing or dead (storing the descriptive
`No running server found.` result) or, the process being fine, when the
context is missing or closed (storing `No network connection found.`); in
both cases the state is otherwise untouched (in particular nothing was
sent), and the send/receive loop is reached only when all four
precondition flags hold. -/
theorem C8_force_preconditions (net : Nat → TRes) (fuel : Nat) (s : Env) :
    (¬(s.server = true ∧ s.serverAlive = true) →
      forceControlMode net fuel s = some (.ok (false,
        { s with serverResponse := .str "No running server found." }))) ∧
    (s.server = true → s.serverAlive = true →
      ¬(s.context = true ∧ s.contextClosed = false) →
      forceControlMode net fuel s = some (.ok (false,
        { s with serverResponse := .str "No network connection found." }))) ∧
    ((s.server = true ∧ s.serverAlive = true ∧ s.context = true ∧
        s.contextClosed = false) ∨
      ∃ msg : String, forceControlMode net fuel s = some (.ok (false,
        { s with serverResponse := .str msg }))) := by
  refine ⟨?_, ?_, ?_⟩
  · intro h
    have hb : (!s.server || !s.serverAlive) = true := by
      cases hs : s.server <;> cases ha : s.serverAlive <;> simp_all
    unfold forceControlMode
    rw [if_pos hb]
  · intro h1 h2 h3
    have hb1 : (!s.server || !s.serverAlive) = false := by rw [h1, h2]; rfl
    have hb2 : (!s.context || s.contextClosed) = true := by
      cases hc : s.context <;> cases hcc : s.contextClosed <;> simp_all
    unfold forceControlMode
    rw [hb1]
    simp only [Bool.false_eq_true, if_false]
    rw [if_pos hb2]
  · by_cases hb : (!s.server || !s.serverAlive) = true
    · refine .inr ⟨"No running server found.", ?_⟩
      unfold forceControlMode
      rw [if_pos hb]
    · by_cases hb2 : (!s.context || s.contextClosed) = true
      · refine .inr ⟨"No network connection found.", ?_⟩
        have hb1 : (!s.server || !s.serverAlive) = false := by
          simpa using hb
        unfold forceControlMode
        rw [hb1]
        simp only [Bool.false_eq_true, if_false]
        rw [if_pos hb2]
      · refine .inl ?_
        simp only [Bool.or_eq_true, Bool.not_eq_true', not_or,
          Bool.not_eq_false, Bool.not_eq_true] at hb hb2
        exact ⟨hb.1, hb.2, hb2.1, hb2.2⟩

/-- C8 (witness): the two short-circuits on concrete sessions: no server
process at all, and a live process with a closed context; neither sends a
message (the `sent` log of the returned state is unchanged). -/
theorem C8_force_preconditions_witness :
    forceControlMode stubbornNet 3 deadSession = some (.ok (false,
      { deadSession with
          serverResponse := .str "No running server found." })) ∧
    forceControlMode stubbornNet 3 closedChannelSession = some (.ok (false,
      { closedChannelSession with
          serverResponse := .str "No network connection found." })) :=
  ⟨(C8_force_preconditions stubbornNet 3 deadSession).1 (by decide),
   (C8_force_preconditions stubbornNet 3 closedChannelSession).2.1
      rfl rfl (by decide)⟩

/-! ## C9 -/

/-- C9: for every action index accepted by the `_step` validation
(`0 ≤ a < len(portfolio_actions)`), the symbol sent on the channel is the
`a`-th entry of the portfolio vocabulary itself: the lookup in
`server_actions` never reaches the control symbols appended after the
vocabulary, and the message appended to the transport log is exactly that
vocabulary entry. -/
theorem C9_step_sends_vocabulary_symbol (pa : List String)
    (net : Nat → TRes) (s : Env) (a : Int) (r : Reply)
    (ha0 : 0 ≤ a) (ha1 : a < pa.length) (hs1 : s.socket = true)
    (hs2 : s.socketClosed = false) (hr : net s.sent.length = .ok r) :
    (serverActionsOf pa).getD a.toNat "" = pa.getD a.toNat "" ∧
    ∃ s1, (stepOp net pa.length (serverActionsOf pa) s a = .ok (r, s1) ∨
           stepOp net pa.length (serverActionsOf pa) s a =
             .error (.protocolViolation r, s1)) ∧
          s1.sent = s.sent ++ [pa.getD a.toNat ""] := by
  have hlt : a.toNat < pa.length := by omega
  have hget : (serverActionsOf pa).getD a.toNat "" = pa.getD a.toNat "" := by
    unfold serverActionsOf
    exact List.getD_append _ _ _ _ hlt
  have hcond : (!(decide (0 ≤ a) && decide (a < (pa.length : Int)))
      || !s.socket || s.socketClosed) = false := by
    simp [ha0, ha1, hs1, hs2]
  refine ⟨hget, ⟨{ s with
      sent := s.sent ++ [(serverActionsOf pa).getD a.toNat ""],
      serverResponse := r }, ?_, by rw [hget]⟩⟩
  cases h4 : replyIs4Tuple r
  · refine .inr ?_
    unfold stepOp
    rw [hcond]
    simp only [Bool.false_eq_true, if_false, sendRecv, hr, h4]
  · refine .inl ?_
    unfold stepOp
    rw [hcond]
    simp only [Bool.false_eq_true, if_false, sendRecv, hr, h4, if_true]

/-- C9 (witness): action index 1 of the default vocabulary sends `buy`. -/
theorem C9_step_sends_vocabulary_symbol_witness :
    (serverActionsOf defaultPortfolioActions).getD (1 : Int).toNat "" =
      defaultPortfolioActions.getD (1 : Int).toNat "" ∧
    ∃ s1, (stepOp (fun _ => .ok (goodTup [4, 10]))
            defaultPortfolioActions.length
            (serverActionsOf defaultPortfolioActions) liveSession 1 =
              .ok (goodTup [4, 10], s1) ∨
           stepOp (fun _ => .ok (goodTup [4, 10]))
            defaultPortfolioActions.length
            (serverActionsOf defaultPortfolioActions) liveSession 1 =
              .error (.protocolViolation (goodTup [4, 10]), s1)) ∧
          s1.sent = liveSession.sent ++
            [defaultPortfolioActions.getD (1 : Int).toNat ""] :=
  C9_step_sends_vocabulary_symbol defaultPortfolioActions
    (fun _ => .ok (goodTup [4, 10])) liveSession 1 (goodTup [4, 10])
    (by decide) (by decide) rfl rfl rfl

/-! ## C10 -/

/-- C10 (counterexample): with no `dataset` kwarg and no `filename` kwarg,
`__init__` probes the filesystem for a file literally named `None`
(`os.path.isfile(str(None))`); in a working directory containing such a
file the construction does not raise at all, contradicting the claim that
an absent or `None` filename always fails. -/
theorem C10_absent_filename_not_always_failing :
    initEnv { hasDataset := false, filename := none } (fun s => s == "None") =
      .ok { dataset := true, engine := true, server := false,
            context := false, socket := false } := rfl

/-- C10 (amended): without a `dataset` kwarg, `__init__` raises
`FileNotFoundError` exactly when `os.path.isfile(str(filename))` is false
(for an absent or `None` filename the probed path is the literal string
`None`), and at that point no dataset, engine, worker, context or socket
resource has been acquired. -/
theorem C10_init_requires_existing_file (args : InitArgs)
    (isfile : String → Bool) (hd : args.hasDataset = false)
    (hf : isfile (pyStrOpt args.filename) = false) :
    initEnv args isfile = .error (.fileNotFound (pyStrOpt args.filename),
      { dataset := false, engine := false, server := false,
        context := false, socket := false }) := by
  unfold initEnv
  rw [hd]
  simp only [Bool.false_eq_true, if_false]
  have hb : (!paramsDatasetHasFilenameKey || !isfile (pyStrOpt args.filename))
      = true := by rw [hf]; rfl
  rw [if_pos hb]

/-- C10 (witness): a missing data file named by the `filename` kwarg
raises with nothing acquired. -/
theorem C10_init_requires_existing_file_witness :
    initEnv { hasDataset := false, filename := some "data.csv" }
        (fun _ => false) =
      .error (.fileNotFound "data.csv",
        { dataset := false, engine := false, server := false,
          context := false, socket := false }) :=
  C10_init_requires_existing_file
    { hasDataset := false, filename := some "data.csv" } (fun _ => false)
    rfl rfl

end BTgym
